import Mathlib

/-!
Verification development for the context-magnifier repository.

The coordinate-fusion and importance-scoring engine is embedded shallowly:
Python floats become exact rationals (ℚ), numpy arrays become index
functions with explicit dimensions, dictionaries become association lists,
and fallible calls return `Except`/`Option`.  External collaborators
(screen capture, OCR token extraction, contour detection, pupil detection)
are abstracted to the data they return, exactly as the code consumes it.
-/

/-- Python `int()` applied to a rational: truncation toward zero
(`int(x / cell_width)` in the source). -/
def pyInt (q : ℚ) : ℤ := if 0 ≤ q then ⌊q⌋ else ⌈q⌉

/-- The `epsilon = 1e-6` used by `find_important_area_near` when building
centroid weights. -/
def eps6 : ℚ := 1 / 1000000

/-- The published importance-grid generation: the `(cells, dimensions,
matrix)` triple of `CoordinateManager` relevant to coordinate queries.
`entry r c` is `importance_matrix[r][c]`; indices outside
`[0,rows)×[0,cols)` are never read by the embedded code. -/
structure ImpGrid where
  rows : ℕ
  cols : ℕ
  entry : ℕ → ℕ → ℚ
  cellW : ℚ
  cellH : ℚ

/-- Arguments of one `find_important_area_near(x, y, radius,
importance_threshold)` call together with the grid state it reads. -/
structure QueryCtx where
  g : ImpGrid
  x : ℚ
  y : ℚ
  radius : ℚ
  thr : ℚ

namespace QueryCtx

/-- `cell_x = int(x / cell_width)`. -/
def cellX (ctx : QueryCtx) : ℤ := pyInt (ctx.x / ctx.g.cellW)

/-- `cell_y = int(y / cell_height)`. -/
def cellY (ctx : QueryCtx) : ℤ := pyInt (ctx.y / ctx.g.cellH)

/-- `radius_cells_x = min(int(radius / cell_width), grid_x // 2)`. -/
def radiusCellsX (ctx : QueryCtx) : ℤ :=
  min (pyInt (ctx.radius / ctx.g.cellW)) ((ctx.g.cols / 2 : ℕ) : ℤ)

/-- `radius_cells_y = min(int(radius / cell_height), grid_y // 2)`. -/
def radiusCellsY (ctx : QueryCtx) : ℤ :=
  min (pyInt (ctx.radius / ctx.g.cellH)) ((ctx.g.rows / 2 : ℕ) : ℤ)

/-- `start_x = max(0, cell_x - radius_cells_x)` (as a non-negative index). -/
def startXn (ctx : QueryCtx) : ℕ := (max 0 (ctx.cellX - ctx.radiusCellsX)).toNat

/-- `start_y = max(0, cell_y - radius_cells_y)`. -/
def startYn (ctx : QueryCtx) : ℕ := (max 0 (ctx.cellY - ctx.radiusCellsY)).toNat

/-- Effective numpy slice stop: the source computes
`end_x = min(grid_x, cell_x + radius_cells_x + 1)`; numpy then interprets a
negative stop as counting from the end of the axis and clamps. -/
def npStop (len : ℕ) (e : ℤ) : ℕ :=
  let e1 := min (len : ℤ) e
  if e1 < 0 then ((len : ℤ) + e1).toNat else e1.toNat

/-- Column stop of the searched slice. -/
def stopXn (ctx : QueryCtx) : ℕ :=
  npStop ctx.g.cols (ctx.cellX + ctx.radiusCellsX + 1)

/-- Row stop of the searched slice. -/
def stopYn (ctx : QueryCtx) : ℕ :=
  npStop ctx.g.rows (ctx.cellY + ctx.radiusCellsY + 1)

/-- Cells of `search_area = importance_matrix[start_y:end_y, start_x:end_x]`,
as (row, col) pairs in global grid indices. -/
def searchSet (ctx : QueryCtx) : Finset (ℕ × ℕ) :=
  Finset.Ico ctx.startYn ctx.stopYn ×ˢ Finset.Ico ctx.startXn ctx.stopXn

/-- `np.max(search_area)`; only read when the slice is non-empty, the
value of the other branch is never used. -/
def subMax (ctx : QueryCtx) : ℚ :=
  if h : (ctx.searchSet).Nonempty then
    ctx.searchSet.sup' h (fun p => ctx.g.entry p.1 p.2)
  else 0

/-- The threshold mask `importance_mask`: the slice is divided by its max
only when that max exceeds `1.0` ("Normalize search area to 0-1 range if
not already normalized"). -/
def passesB (ctx : QueryCtx) (r c : ℕ) : Bool :=
  if 1 < ctx.subMax then decide (ctx.thr ≤ ctx.g.entry r c / ctx.subMax)
  else decide (ctx.thr ≤ ctx.g.entry r c)

/-- `np.any(importance_mask)`. -/
def anyPass (ctx : QueryCtx) : Bool :=
  decide (∃ p ∈ ctx.searchSet, ctx.passesB p.1 p.2 = true)

/-- `filtered_search_area`: cells failing the mask are zeroed. -/
def filteredVal (ctx : QueryCtx) (r c : ℕ) : ℚ :=
  if ctx.passesB r c then ctx.g.entry r c else 0

/-- `weights = filtered_search_area + epsilon` (before normalization). -/
def weightRaw (ctx : QueryCtx) (r c : ℕ) : ℚ := ctx.filteredVal r c + eps6

/-- `np.sum(weights)`. -/
def totalWeight (ctx : QueryCtx) : ℚ :=
  ∑ p ∈ ctx.searchSet, ctx.weightRaw p.1 p.2

/-- `weighted_x = np.sum(x_indices * weights)` after the weights were
normalized to sum to 1; `x_indices` are indices within the slice. -/
def wx (ctx : QueryCtx) : ℚ :=
  ∑ p ∈ ctx.searchSet,
    ((p.2 - ctx.startXn : ℕ) : ℚ) * (ctx.weightRaw p.1 p.2 / ctx.totalWeight)

/-- `weighted_y = np.sum(y_indices * weights)` with normalized weights. -/
def wy (ctx : QueryCtx) : ℚ :=
  ∑ p ∈ ctx.searchSet,
    ((p.1 - ctx.startYn : ℕ) : ℚ) * (ctx.weightRaw p.1 p.2 / ctx.totalWeight)

end QueryCtx

/-- Body of `CoordinateManager.find_important_area_near` after the
enabled/None guard: empty slice or empty mask return the input unchanged,
otherwise the weighted centroid is converted back to screen coordinates by
`(start + weighted + 0.5) * cell_dim`. -/
def findCore (ctx : QueryCtx) : ℚ × ℚ :=
  if (ctx.searchSet).Nonempty then
    if ctx.anyPass then
      (((ctx.startXn : ℚ) + ctx.wx + 1 / 2) * ctx.g.cellW,
       ((ctx.startYn : ℚ) + ctx.wy + 1 / 2) * ctx.g.cellH)
    else (ctx.x, ctx.y)
  else (ctx.x, ctx.y)

/-- Session state of `CoordinateManager` read by the fusion entry points.
The shared gaze memory slots, the flags, the last mouse coordinate and the
atomically published grid triple (`None` until first computation). -/
structure CMState where
  eyeTrackingEnabled : Bool
  importanceGridEnabled : Bool
  sharedEyeX : ℚ
  sharedEyeY : ℚ
  mouseX : ℚ
  mouseY : ℚ
  importanceGrid : Option ImpGrid

/-- `CoordinateManager.__init__(eye_tracking_enabled, importance_grid_enabled)`:
shared gaze slots start at `0.0`, mouse at `0`, no matrix yet. -/
def initState (eye imp : Bool) : CMState :=
  ⟨eye, imp, 0, 0, 0, 0, none⟩

/-- `find_important_area_near` including its guard
`if not self.importance_grid_enabled or self.importance_matrix is None:
return x, y`. -/
def findImportantAreaNear (s : CMState) (x y radius thr : ℚ) : ℚ × ℚ :=
  if s.importanceGridEnabled = false then (x, y)
  else
    match s.importanceGrid with
    | none => (x, y)
    | some g => findCore ⟨g, x, y, radius, thr⟩

/-- `CoordinateManager.get_coordinates` of `coordinate_manager.py`: start
from the live cursor position, importance-adjust it when enabled and a
matrix exists (default `radius=200`, `importance_threshold=0.7`), then let
the shared gaze slots override everything when eye tracking is enabled. -/
def getCoordinatesCM (s : CMState) (mouseX mouseY : ℚ) : ℚ × ℚ :=
  let p0 := (mouseX, mouseY)
  let p1 :=
    if s.importanceGridEnabled && s.importanceGrid.isSome then
      findImportantAreaNear s mouseX mouseY 200 (7 / 10)
    else p0
  if s.eyeTrackingEnabled then (s.sharedEyeX, s.sharedEyeY) else p1

/-- `CoordinateManager.get_coordinates` of `main.py`: start from the
stored mouse coordinate, let gaze override it, then importance-adjust the
result when the importance grid is enabled. -/
def getCoordinatesMain (s : CMState) : ℚ × ℚ :=
  let p0 := (s.mouseX, s.mouseY)
  let p1 := if s.eyeTrackingEnabled then (s.sharedEyeX, s.sharedEyeY) else p0
  if s.importanceGridEnabled then
    findImportantAreaNear s p1.1 p1.2 200 (7 / 10)
  else p1

/-! ## ScreenAnalyzer (`ocr/main.py`) -/

/-- Numeric configuration of `ScreenAnalyzer.__init__`. -/
structure AnalyzerConfig where
  gridX : ℕ
  gridY : ℕ
  baseSize : ℚ
  maxSizeFactor : ℚ
  minSizeFactor : ℚ
  confidenceThreshold : ℚ
  buttonImportance : ℚ
  inputFieldImportance : ℚ
  checkboxImportance : ℚ
  confirmationTextImportance : ℚ
  errorImportance : ℚ
  titleImportance : ℚ
  lengthImportance : ℚ
  densityImportance : ℚ

/-- The default values of `ScreenAnalyzer.__init__`. -/
def defaultConfig : AnalyzerConfig :=
  ⟨7, 14, 20, 4, 1, 20, 3, 2, 1, 3, 5 / 2, 3 / 2, 3 / 2, 1 / 5⟩

/-- One OCR token as `pytesseract.image_to_data` returns it to
`analyze_text_importance`: its text, integer confidence and pixel height. -/
structure OcrToken where
  text : String
  conf : ℤ
  height : ℤ

/-- Python `needle in haystack` substring test. -/
def containsSub (haystack needle : String) : Bool :=
  (haystack.splitOn needle).length ≥ 2

/-- Score of one accepted token in `analyze_text_importance`:
`size_factor * content_factor * length_factor`. -/
def tokenScore (cfg : AnalyzerConfig) (t : OcrToken) : ℚ :=
  let h : ℚ := (t.height : ℚ)
  let sizeFactor :=
    if h < cfg.baseSize then min (cfg.baseSize / max h 5) cfg.maxSizeFactor
    else max (cfg.baseSize / h) cfg.minSizeFactor
  let lower := t.text.toLower
  let contentFactor :=
    if ["error", "warning", "alert", "caution"].contains lower then
      cfg.errorImportance
    else if ["ok", "cancel", "submit", "save"].any (fun b => containsSub lower b) then
      cfg.confirmationTextImportance
    else if t.text.front.isUpper && t.text.length > 3 then cfg.titleImportance
    else 1
  let lengthFactor := if t.text.trim.length ≤ 5 then cfg.lengthImportance else 1
  sizeFactor * contentFactor * lengthFactor

/-- `analyze_text_importance`: tokens passing the confidence filter with
non-empty trimmed text each contribute their score plus the flat density
bonus; the cell text score is the sum. -/
def analyzeTextImportance (cfg : AnalyzerConfig) (tokens : List OcrToken) : ℚ :=
  ((tokens.filter fun t =>
      decide (cfg.confidenceThreshold < (t.conf : ℚ)) && decide (t.text.trim ≠ "")).map
    fun t => tokenScore cfg t + cfg.densityImportance).sum

/-- One contour bounding box found by `detect_ui_elements`, with the
externally supplied fact whether OCR finds text inside it. -/
structure Contour where
  w : ℤ
  h : ℤ
  hasText : Bool

/-- `aspect_ratio = w / float(h)` of a contour bounding box. -/
def Contour.aspect (c : Contour) : ℚ := (c.w : ℚ) / (c.h : ℚ)

/-- `area = w * h` of a contour bounding box. -/
def Contour.area (c : Contour) : ℤ := c.w * c.h

/-- Classification of one contour in `detect_ui_elements`: too-small
contours are skipped, then buttons, input fields and checkboxes are told
apart by aspect ratio and area (a button additionally needs OCR text). -/
def contourImportance (cfg : AnalyzerConfig) (c : Contour) : Option ℚ :=
  if c.w < 10 ∨ c.h < 10 then none
  else if 3 / 2 < c.aspect ∧ c.aspect < 5 ∧ 500 < c.area then
    if c.hasText then some cfg.buttonImportance else none
  else if 3 < c.aspect ∧ c.aspect < 10 ∧ 1000 < c.area then
    some cfg.inputFieldImportance
  else if 4 / 5 < c.aspect ∧ c.aspect < 6 / 5 ∧ 8000 < c.area ∧ c.area < 1000 then
    some cfg.checkboxImportance
  else none

/-- `detect_ui_elements`: the cell UI score is the sum of the importances
of the classified elements. -/
def detectUIElements (cfg : AnalyzerConfig) (cs : List Contour) : ℚ :=
  (cs.filterMap (contourImportance cfg)).sum

/-- What the per-cell analysis of `generate_importance_grid` can see for
one cell: an invalid (empty) cell image, an exception raised by OCR or
detection, or the OCR tokens and contours of the cell. -/
inductive CellOutcome where
  | invalid : CellOutcome
  | failed : CellOutcome
  | ok : List OcrToken → List Contour → CellOutcome

/-- Importance written for one cell: invalid cells are skipped (the matrix
entry keeps its zero initialization) and per-cell exceptions score 0;
otherwise `ui_importance + text_importance`. -/
def cellScore (cfg : AnalyzerConfig) (o : CellOutcome) : ℚ :=
  match o with
  | .invalid => 0
  | .failed => 0
  | .ok tokens contours => detectUIElements cfg contours + analyzeTextImportance cfg tokens

/-- `generate_importance_grid`: `none` input models the whole-grid failure
path (no valid screenshot), which returns the `np.ones` fallback matrix;
otherwise the matrix is `np.zeros((grid_y, grid_x))` filled cell by cell.
The screenshot itself is abstracted to what OCR and contour detection
return per cell. -/
def generateImportanceGrid (cfg : AnalyzerConfig)
    (input : Option (ℕ → ℕ → CellOutcome)) : List (List ℚ) :=
  match input with
  | none => List.replicate cfg.gridY (List.replicate cfg.gridX 1)
  | some cells =>
      (List.range cfg.gridY).map fun y =>
        (List.range cfg.gridX).map fun x => cellScore cfg (cells x y)

/-- `matrix[r][c]` of an embedded matrix (0 outside the bounds). -/
def entryAt (m : List (List ℚ)) (r c : ℕ) : ℚ := (m.getD r []).getD c 0

/-! ## EyeTracker (`facial-recognition/main.py` and the persisted
calibration record) -/

/-- One stored calibration sample: averaged left and right pupil
coordinates for one named screen position. -/
structure CalSample where
  leftPupil : ℚ × ℚ
  rightPupil : ℚ × ℚ

/-- The `EyeTracker` fields read by the gaze mapping: the calibrated
points, the calibration screen points, the screen size and the
`is_calibrated` flag. Dictionaries become association lists. -/
structure EyeTrackerState where
  calibratedPoints : List (String × CalSample)
  calibrationScreenPoints : List (String × (ℚ × ℚ))
  screenWidth : ℚ
  screenHeight : ℚ
  isCalibrated : Bool

/-- `epsilon = 1e-10` of `map_eye_position_to_screen`. -/
def epsTen : ℚ := 1 / 10000000000

/-- The `current_left/current_right` pupils used by the mapping: a missing
side is replaced by `(0, 0)`. -/
def currentEyes (eye : Option (ℚ × ℚ) × Option (ℚ × ℚ)) : (ℚ × ℚ) × (ℚ × ℚ) :=
  match eye with
  | (some l, some r) => (l, r)
  | (some l, none) => (l, (0, 0))
  | (none, some r) => ((0, 0), r)
  | (none, none) => ((0, 0), (0, 0))

/-- Squared distance of the current reading to one calibration sample:
the two-eye average when both pupils are available, else the single
available eye. -/
def sampleDistSq (useL useR : Bool) (curL curR : ℚ × ℚ) (d : CalSample) : ℚ :=
  let ld := (curL.1 - d.leftPupil.1) ^ 2 + (curL.2 - d.leftPupil.2) ^ 2
  let rd := (curR.1 - d.rightPupil.1) ^ 2 + (curR.2 - d.rightPupil.2) ^ 2
  if useL && useR then (ld + rd) / 2 else if useL then ld else rd

/-- The raw inverse-distance weights `1.0 / (distance_sq + epsilon)`, one
per calibration sample. -/
def rawGazeWeights (s : EyeTrackerState) (eye : Option (ℚ × ℚ) × Option (ℚ × ℚ)) :
    List (String × ℚ) :=
  let cur := currentEyes eye
  s.calibratedPoints.map fun pd =>
    (pd.1, 1 / (sampleDistSq eye.1.isSome eye.2.isSome cur.1 cur.2 pd.2 + epsTen))

/-- The weights after the `if total_weight > 0` normalization. -/
def gazeWeights (s : EyeTrackerState) (eye : Option (ℚ × ℚ) × Option (ℚ × ℚ)) :
    List (String × ℚ) :=
  let raw := rawGazeWeights s eye
  let total := (raw.map Prod.snd).sum
  if 0 < total then raw.map fun pw => (pw.1, pw.2 / total) else raw

/-- `map_eye_position_to_screen`: `None` when both pupils are missing,
otherwise the weighted average of the calibration screen points (samples
whose position is missing from `calibration_screen_points` contribute
nothing), truncated to integers. -/
def mapEyePositionToScreen (s : EyeTrackerState)
    (eye : Option (ℚ × ℚ) × Option (ℚ × ℚ)) : Option (ℤ × ℤ) :=
  if eye.1.isNone && eye.2.isNone then none
  else
    let ws := gazeWeights s eye
    let sx := (ws.map fun pw =>
      match s.calibrationScreenPoints.lookup pw.1 with
      | some pt => pw.2 * pt.1
      | none => 0).sum
    let sy := (ws.map fun pw =>
      match s.calibrationScreenPoints.lookup pw.1 with
      | some pt => pw.2 * pt.2
      | none => 0).sum
    some (pyInt sx, pyInt sy)

/-- The error taxonomy the specification assigns to gaze queries. The
embedding returns `Except` so that a raising implementation would be
distinguishable from one returning a value. -/
inductive GazeError where
  | notCalibrated : GazeError

/-- `EyeTracker.get_gaze_point` with the frame's detected pupils supplied
by the (external) pupil detector: the source returns `None` when not
calibrated and otherwise defers to the mapping; no branch raises. -/
def getGazePoint (s : EyeTrackerState) (pupils : Option (ℚ × ℚ) × Option (ℚ × ℚ)) :
    Except GazeError (Option (ℤ × ℤ)) :=
  if s.isCalibrated = false then Except.ok none
  else Except.ok (mapEyePositionToScreen s pupils)

/-- `EyeTracker.end_calibration` (user abort): sets `is_calibrated = False`. -/
def endCalibration (s : EyeTrackerState) : EyeTrackerState :=
  ⟨s.calibratedPoints, s.calibrationScreenPoints, s.screenWidth, s.screenHeight, false⟩

/-- The persisted calibration record of `run_calibration` /
`load_calibration_and_track`: required fields `calibrated_points`,
`calibration_screen_points`, `screen_width`, `screen_height`. -/
structure CalibrationRecord where
  calibratedPoints : List (String × CalSample)
  calibrationScreenPoints : List (String × (ℚ × ℚ))
  screenWidth : ℚ
  screenHeight : ℚ

/-- `run_calibration` of `facial_recognition/calibrate.py`: the saved
record carries the four fields verbatim. -/
def saveCalibration (t : EyeTrackerState) : CalibrationRecord :=
  ⟨t.calibratedPoints, t.calibrationScreenPoints, t.screenWidth, t.screenHeight⟩

/-- Modelled from the spec: the module `facial_recognition/main.py`
imported by `coordinate_manager.py` and `calibrate.py` is not in the
repository snapshot (only the hyphenated `facial-recognition/main.py` is);
per the spec (§4.2 `load`, §6 persisted record) its `EyeTracker`
constructor stores the supplied calibrated points, calibration screen
points and screen dimensions verbatim, initially uncalibrated. -/
def mkEyeTracker (cp : List (String × CalSample)) (csp : List (String × (ℚ × ℚ)))
    (w h : ℚ) : EyeTrackerState :=
  ⟨cp, csp, w, h, false⟩

/-- `CoordinateManager.load_calibration_and_track`, state part: after the
required-field validation the tracker is built from the record's fields
and `is_calibrated` is set to `True`. -/
def loadCalibration (r : CalibrationRecord) : EyeTrackerState :=
  let t := mkEyeTracker r.calibratedPoints r.calibrationScreenPoints
    r.screenWidth r.screenHeight
  ⟨t.calibratedPoints, t.calibrationScreenPoints, t.screenWidth, t.screenHeight, true⟩

/-! ## Helper lemmas -/

theorem listSum_nonneg (l : List ℚ) (h : ∀ x ∈ l, 0 ≤ x) : 0 ≤ l.sum :=
  List.sum_nonneg h

theorem listSum_pos (l : List ℚ) (hne : l ≠ []) (h : ∀ x ∈ l, 0 < x) : 0 < l.sum := by
  induction l with
  | nil => exact absurd rfl hne
  | cons a t ih =>
    rcases t with _ | ⟨b, t2⟩
    · simpa using h a (by simp)
    · have ht : 0 < (b :: t2).sum := ih (by simp) fun x hx => h x (List.mem_cons_of_mem a hx)
      have ha : 0 < a := h a (by simp)
      simpa using add_pos ha ht

theorem listSum_div (l : List ℚ) (c : ℚ) : (l.map fun q => q / c).sum = l.sum / c := by
  induction l with
  | nil => simp
  | cons a t ih => simp [ih, add_div]

/-- A 1×1 grid with constant entry `v` and 100×100 pixel cells. -/
def g1 (v : ℚ) : ImpGrid := ⟨1, 1, fun _ _ => v, 100, 100⟩

/-- Query at (30, 30), radius 200, threshold `thr`, on `g1 v`. -/
def ctx1 (v thr : ℚ) : QueryCtx := ⟨g1 v, 30, 30, 200, thr⟩

theorem pyInt_30_100 : pyInt ((30 : ℚ) / 100) = 0 := by
  rw [pyInt, if_pos (by norm_num), show ((30 : ℚ) / 100) = 3 / 10 by norm_num,
    Int.floor_eq_iff]
  norm_num

theorem pyInt_200_100 : pyInt ((200 : ℚ) / 100) = 2 := by
  rw [pyInt, if_pos (by norm_num), show ((200 : ℚ) / 100) = 2 by norm_num]
  exact_mod_cast Int.floor_intCast 2

theorem ctx1_cellX (v t : ℚ) : (ctx1 v t).cellX = 0 := pyInt_30_100

theorem ctx1_cellY (v t : ℚ) : (ctx1 v t).cellY = 0 := pyInt_30_100

theorem ctx1_radiusCellsX (v t : ℚ) : (ctx1 v t).radiusCellsX = 0 := by
  show min (pyInt ((200 : ℚ) / 100)) ((1 / 2 : ℕ) : ℤ) = 0
  rw [pyInt_200_100]
  norm_num

theorem ctx1_radiusCellsY (v t : ℚ) : (ctx1 v t).radiusCellsY = 0 := by
  show min (pyInt ((200 : ℚ) / 100)) ((1 / 2 : ℕ) : ℤ) = 0
  rw [pyInt_200_100]
  norm_num

theorem ctx1_startXn (v t : ℚ) : (ctx1 v t).startXn = 0 := by
  rw [QueryCtx.startXn, ctx1_cellX, ctx1_radiusCellsX]
  norm_num

theorem ctx1_startYn (v t : ℚ) : (ctx1 v t).startYn = 0 := by
  rw [QueryCtx.startYn, ctx1_cellY, ctx1_radiusCellsY]
  norm_num

theorem ctx1_stopXn (v t : ℚ) : (ctx1 v t).stopXn = 1 := by
  rw [QueryCtx.stopXn, ctx1_cellX, ctx1_radiusCellsX]
  norm_num [QueryCtx.npStop, ctx1, g1]

theorem ctx1_stopYn (v t : ℚ) : (ctx1 v t).stopYn = 1 := by
  rw [QueryCtx.stopYn, ctx1_cellY, ctx1_radiusCellsY]
  norm_num [QueryCtx.npStop, ctx1, g1]

theorem ctx1_searchSet (v t : ℚ) : (ctx1 v t).searchSet = {(0, 0)} := by
  rw [QueryCtx.searchSet, ctx1_startXn, ctx1_stopXn, ctx1_startYn, ctx1_stopYn]
  rfl

theorem ctx1_subMax (v t : ℚ) : (ctx1 v t).subMax = v := by
  rw [QueryCtx.subMax]
  rw [dif_pos (by rw [ctx1_searchSet]; exact ⟨(0, 0), by simp⟩)]
  simp only [ctx1_searchSet]
  exact Finset.sup'_singleton ..

theorem ctx1_anyPass (v t : ℚ) : (ctx1 v t).anyPass = (ctx1 v t).passesB 0 0 := by
  simp [QueryCtx.anyPass, ctx1_searchSet]

theorem ctx1_wx (v t : ℚ) : (ctx1 v t).wx = 0 := by
  simp [QueryCtx.wx, ctx1_searchSet, ctx1_startXn]

theorem ctx1_wy (v t : ℚ) : (ctx1 v t).wy = 0 := by
  simp [QueryCtx.wy, ctx1_searchSet, ctx1_startYn]

theorem ctx1_nonempty (v t : ℚ) : (ctx1 v t).searchSet.Nonempty := by
  rw [ctx1_searchSet]
  exact ⟨(0, 0), by simp⟩

theorem ctx1_findCore_pass (v t : ℚ) (hp : (ctx1 v t).passesB 0 0 = true) :
    findCore (ctx1 v t) = (50, 50) := by
  have hap : (ctx1 v t).anyPass = true := by rw [ctx1_anyPass]; exact hp
  rw [findCore, if_pos (ctx1_nonempty v t), if_pos hap, ctx1_wx, ctx1_wy,
    ctx1_startXn, ctx1_startYn]
  norm_num [ctx1, g1]

theorem ctx1_findCore_nopass (v t : ℚ) (hp : (ctx1 v t).passesB 0 0 = false) :
    findCore (ctx1 v t) = (30, 30) := by
  have hap : ¬ (ctx1 v t).anyPass = true := by rw [ctx1_anyPass, hp]; exact Bool.false_ne_true
  rw [findCore, if_pos (ctx1_nonempty v t), if_neg hap]
  rfl

/-- The state used to refute C1 on main.py's entry point: eye tracking on,
importance on, gaze published at (30, 30), a 1×1 matrix whose only entry 3
passes the 0.7 threshold. -/
def sMainCex : CMState := ⟨true, true, 30, 30, 400, 400, some (g1 3)⟩

theorem ctx1_pass_3 : (ctx1 3 (7 / 10)).passesB 0 0 = true := by
  rw [QueryCtx.passesB, ctx1_subMax]
  norm_num [ctx1, g1]

/-! ## Claim theorems -/

/-- C1 counterexample: in the `main.py` variant of `get_coordinates` —
one of the two fusion entry points the claim covers — with eye tracking
enabled and the mapped gaze coordinate (30, 30) published, enabling
importance mode with a matrix present yields (50, 50), not the gaze
coordinate: the gaze coordinate is importance-adjusted there. -/
theorem c1_main_gaze_adjusted_cex :
    sMainCex.eyeTrackingEnabled = true ∧
    (sMainCex.sharedEyeX, sMainCex.sharedEyeY) = (30, 30) ∧
    getCoordinatesMain sMainCex = (50, 50) ∧
    ((50 : ℚ), (50 : ℚ)) ≠ ((30 : ℚ), (30 : ℚ)) := by
  refine ⟨rfl, rfl, ?_, by norm_num⟩
  show findCore (ctx1 3 (7 / 10)) = (50, 50)
  exact ctx1_findCore_pass 3 (7 / 10) ctx1_pass_3

/-- C1 (amended): for `coordinate_manager.py`'s `get_coordinates` — the
canonical flow — whenever eye tracking is enabled the result is exactly
the shared mapped gaze coordinate, regardless of the mouse coordinate,
the importance flag and any importance matrix; the gaze coordinate is
never importance-adjusted there. In `main.py`'s variant the gaze
coordinate is subsequently importance-adjusted. -/
theorem c1_gaze_final_precedence_cm (s : CMState) (mx my : ℚ)
    (h : s.eyeTrackingEnabled = true) :
    getCoordinatesCM s mx my = (s.sharedEyeX, s.sharedEyeY) := by
  simp [getCoordinatesCM, h]

/-- Witness for C1: the amended theorem applied to the concrete state with
gaze (30, 30), importance enabled and a matrix present. -/
theorem c1_gaze_final_precedence_cm_w :
    getCoordinatesCM sMainCex 400 400 = (30, 30) :=
  c1_gaze_final_precedence_cm sMainCex 400 400 rfl

/-- C10: when eye tracking is enabled, `get_coordinates` returns the
shared gaze-slot values unconditionally, and `__init__` sets those slots
to 0.0 — so before any gaze sample is published the resolved focus
coordinate is (0.0, 0.0), whatever the cursor position and the importance
flag. -/
theorem c10_initial_gaze_is_origin (imp : Bool) (mx my : ℚ) :
    getCoordinatesCM (initState true imp) mx my = (0, 0) := by
  simp [getCoordinatesCM, initState]

/-- A completed calibration used as concrete witness data. -/
def trkW : EyeTrackerState :=
  ⟨[("center", ⟨(100, 200), (110, 210)⟩)], [("center", (960, 540))], 1920, 1080, true⟩

/-- C2: saving the four persisted fields and loading them back yields a
calibrated tracker whose gaze mapping agrees with the pre-save tracker on
every pupil reading. -/
theorem c2_calibration_roundtrip (t : EyeTrackerState) (h : t.isCalibrated = true) :
    (loadCalibration (saveCalibration t)).isCalibrated = true ∧
    ∀ eye, mapEyePositionToScreen (loadCalibration (saveCalibration t)) eye =
      mapEyePositionToScreen t eye := by
  obtain ⟨cp, csp, w, hh, cal⟩ := t
  subst h
  exact ⟨rfl, fun _ => rfl⟩

/-- Witness for C2: the round-trip theorem at a concrete calibrated
tracker and a concrete pupil reading. -/
theorem c2_calibration_roundtrip_w :
    (loadCalibration (saveCalibration trkW)).isCalibrated = true ∧
    mapEyePositionToScreen (loadCalibration (saveCalibration trkW))
      (some (105, 205), none) = mapEyePositionToScreen trkW (some (105, 205), none) :=
  ⟨(c2_calibration_roundtrip trkW rfl).1, (c2_calibration_roundtrip trkW rfl).2 _⟩

/-- A tracker left by a user abort: `end_calibration` clears the flag. -/
def abortedTrk : EyeTrackerState := endCalibration trkW

/-- C8 counterexample: on an aborted (uncalibrated) tracker, querying the
gaze mapping returns `None` as a value; it does not fail with
`NotCalibratedError` (no branch of `get_gaze_point` raises). -/
theorem c8_no_error_when_uncalibrated_cex :
    abortedTrk.isCalibrated = false ∧
    getGazePoint abortedTrk (none, none) = Except.ok none ∧
    ∀ e : GazeError, getGazePoint abortedTrk (none, none) ≠ Except.error e :=
  ⟨rfl, rfl, fun _ h => nomatch h⟩

/-- C8 (amended): whenever the tracker is not calibrated — including after
a user abort, which sets `is_calibrated = False` — `get_gaze_point`
returns `None` without raising; when calibrated it defers to the mapping
and returns `None` exactly when both pupils are undetected. -/
theorem c8_gaze_query_behavior (s : EyeTrackerState)
    (p : Option (ℚ × ℚ) × Option (ℚ × ℚ)) :
    ((endCalibration s).isCalibrated = false) ∧
    (s.isCalibrated = false →
      getGazePoint s p = Except.ok none ∧
      ∀ e : GazeError, getGazePoint s p ≠ Except.error e) ∧
    (s.isCalibrated = true →
      getGazePoint s p = Except.ok (mapEyePositionToScreen s p) ∧
      (getGazePoint s p = Except.ok none ↔ p.1 = none ∧ p.2 = none)) := by
  refine ⟨rfl, fun h => ?_, fun h => ?_⟩
  · rw [getGazePoint, if_pos h]
    exact ⟨rfl, fun _ hh => nomatch hh⟩
  · rw [getGazePoint, if_neg (by simp [h])]
    refine ⟨rfl, ?_⟩
    obtain ⟨l, r⟩ := p
    cases l <;> cases r <;> simp [mapEyePositionToScreen]

/-- Witness for C8 (amended): at a concrete calibrated tracker with both
pupils undetected the query returns `Except.ok none`. -/
theorem c8_gaze_query_behavior_w :
    getGazePoint trkW (none, none) = Except.ok none :=
  ((c8_gaze_query_behavior trkW (none, none)).2.2 rfl).2.mpr ⟨rfl, rfl⟩

/-- The specification's notion of normalized importance of a cell: its
value divided by the sub-grid's own maximum (taken as 0 when the sub-grid
has no positive maximum). -/
def normVal (ctx : QueryCtx) (r c : ℕ) : ℚ :=
  if 0 < ctx.subMax then ctx.g.entry r c / ctx.subMax else 0

theorem entry_le_subMax (ctx : QueryCtx) (hne : ctx.searchSet.Nonempty)
    {p : ℕ × ℕ} (hp : p ∈ ctx.searchSet) : ctx.g.entry p.1 p.2 ≤ ctx.subMax := by
  rw [QueryCtx.subMax, dif_pos hne, Finset.le_sup'_iff]
  exact ⟨p, hp, le_refl _⟩

theorem pass_entry_nonneg (ctx : QueryCtx) (h0 : 0 ≤ ctx.thr) {r c : ℕ}
    (hp : ctx.passesB r c = true) : 0 ≤ ctx.g.entry r c := by
  rw [QueryCtx.passesB] at hp
  by_cases hm : 1 < ctx.subMax
  · rw [if_pos hm, decide_eq_true_eq] at hp
    have hm0 : 0 < ctx.subMax := lt_trans zero_lt_one hm
    have h2 : 0 ≤ ctx.g.entry r c / ctx.subMax := le_trans h0 hp
    have h3 := mul_nonneg h2 hm0.le
    rwa [div_mul_cancel₀ _ (ne_of_gt hm0)] at h3
  · rw [if_neg hm, decide_eq_true_eq] at hp
    exact le_trans h0 hp

theorem weightRaw_pos (ctx : QueryCtx) (h0 : 0 ≤ ctx.thr) (r c : ℕ) :
    0 < ctx.weightRaw r c := by
  rw [QueryCtx.weightRaw]
  have hf : 0 ≤ ctx.filteredVal r c := by
    rw [QueryCtx.filteredVal]
    split_ifs with h
    · exact pass_entry_nonneg ctx h0 h
    · exact le_refl 0
  have heps : (0 : ℚ) < eps6 := by norm_num [eps6]
  linarith

theorem totalWeight_pos (ctx : QueryCtx) (h0 : 0 ≤ ctx.thr)
    (hne : ctx.searchSet.Nonempty) : 0 < ctx.totalWeight :=
  Finset.sum_pos (fun p _ => weightRaw_pos ctx h0 p.1 p.2) hne

theorem normWeights_sum (ctx : QueryCtx) (h0 : 0 ≤ ctx.thr)
    (hne : ctx.searchSet.Nonempty) :
    ∑ p ∈ ctx.searchSet, ctx.weightRaw p.1 p.2 / ctx.totalWeight = 1 := by
  rw [← Finset.sum_div]
  exact div_self (ne_of_gt (totalWeight_pos ctx h0 hne))

/-- C3: whenever no cell of the radius-bounded, grid-clipped sub-grid that
is searched has normalized importance reaching the threshold (taken in
[0, 1]), `find_important_area_near` returns exactly the input point; the
embedded function is total, so the query never raises. -/
theorem c3_nopass_returns_input (ctx : QueryCtx) (h0 : 0 ≤ ctx.thr)
    (h1 : ctx.thr ≤ 1)
    (hn : ∀ p ∈ ctx.searchSet, normVal ctx p.1 p.2 < ctx.thr) :
    findCore ctx = (ctx.x, ctx.y) := by
  by_cases hne : ctx.searchSet.Nonempty
  · have hap : ¬ ctx.anyPass = true := by
      rw [QueryCtx.anyPass, decide_eq_true_eq]
      rintro ⟨p, hp, hpass⟩
      have hnv := hn p hp
      have hle : ctx.g.entry p.1 p.2 ≤ ctx.subMax := entry_le_subMax ctx hne hp
      rw [QueryCtx.passesB] at hpass
      by_cases hm : 1 < ctx.subMax
      · rw [if_pos hm, decide_eq_true_eq] at hpass
        rw [normVal, if_pos (lt_trans zero_lt_one hm)] at hnv
        exact absurd hpass (not_le.mpr hnv)
      · rw [if_neg hm, decide_eq_true_eq] at hpass
        by_cases hm0 : 0 < ctx.subMax
        · rw [normVal, if_pos hm0] at hnv
          have hv0 : 0 ≤ ctx.g.entry p.1 p.2 := le_trans h0 hpass
          have hself : ctx.g.entry p.1 p.2 ≤ ctx.g.entry p.1 p.2 / ctx.subMax := by
            rw [le_div_iff hm0]
            calc ctx.g.entry p.1 p.2 * ctx.subMax
                ≤ ctx.g.entry p.1 p.2 * 1 :=
                  mul_le_mul_of_nonneg_left (le_of_not_lt hm) hv0
              _ = ctx.g.entry p.1 p.2 := mul_one _
          exact absurd hpass (not_le.mpr (lt_of_le_of_lt hself hnv))
        · rw [normVal, if_neg hm0] at hnv
          have hthr0 : ctx.thr ≤ 0 :=
            le_trans hpass (le_trans hle (le_of_not_lt hm0))
          exact absurd hnv (not_lt.mpr hthr0)
    rw [findCore, if_pos hne, if_neg hap]
  · rw [findCore, if_neg hne]

/-- Witness for C3: a 1×1 all-zero sub-grid where no cell reaches the 0.7
threshold; the query at (30, 30) returns (30, 30) exactly. -/
theorem c3_nopass_returns_input_w : findCore (ctx1 0 (7 / 10)) = (30, 30) := by
  have h := c3_nopass_returns_input (ctx1 0 (7 / 10)) (by norm_num [ctx1])
    (by norm_num [ctx1]) ?_
  · exact h
  · intro p hp
    rw [normVal, ctx1_subMax, if_neg (lt_irrefl 0)]
    norm_num [ctx1]

theorem searchSet_bounds (ctx : QueryCtx) {p : ℕ × ℕ} (hp : p ∈ ctx.searchSet) :
    (ctx.startYn ≤ p.1 ∧ p.1 < ctx.stopYn) ∧ ctx.startXn ≤ p.2 ∧ p.2 < ctx.stopXn := by
  rw [QueryCtx.searchSet, Finset.mem_product, Finset.mem_Ico, Finset.mem_Ico] at hp
  exact hp

theorem wx_nonneg (ctx : QueryCtx) (h0 : 0 ≤ ctx.thr)
    (hne : ctx.searchSet.Nonempty) : 0 ≤ ctx.wx := by
  apply Finset.sum_nonneg
  intro p _
  exact mul_nonneg (Nat.cast_nonneg _)
    (div_nonneg (weightRaw_pos ctx h0 p.1 p.2).le (totalWeight_pos ctx h0 hne).le)

theorem wy_nonneg (ctx : QueryCtx) (h0 : 0 ≤ ctx.thr)
    (hne : ctx.searchSet.Nonempty) : 0 ≤ ctx.wy := by
  apply Finset.sum_nonneg
  intro p _
  exact mul_nonneg (Nat.cast_nonneg _)
    (div_nonneg (weightRaw_pos ctx h0 p.1 p.2).le (totalWeight_pos ctx h0 hne).le)

theorem wx_le (ctx : QueryCtx) (h0 : 0 ≤ ctx.thr) (hne : ctx.searchSet.Nonempty) :
    ctx.wx ≤ ((ctx.stopXn - 1 - ctx.startXn : ℕ) : ℚ) := by
  calc ctx.wx
      ≤ ∑ p ∈ ctx.searchSet, ((ctx.stopXn - 1 - ctx.startXn : ℕ) : ℚ) *
          (ctx.weightRaw p.1 p.2 / ctx.totalWeight) := by
        apply Finset.sum_le_sum
        intro p hp
        have hb := (searchSet_bounds ctx hp).2.2
        exact mul_le_mul_of_nonneg_right (Nat.cast_le.mpr (by omega))
          (div_nonneg (weightRaw_pos ctx h0 p.1 p.2).le (totalWeight_pos ctx h0 hne).le)
    _ = ((ctx.stopXn - 1 - ctx.startXn : ℕ) : ℚ) *
          ∑ p ∈ ctx.searchSet, ctx.weightRaw p.1 p.2 / ctx.totalWeight := by
        rw [Finset.mul_sum]
    _ = ((ctx.stopXn - 1 - ctx.startXn : ℕ) : ℚ) := by
        rw [normWeights_sum ctx h0 hne, mul_one]

theorem wy_le (ctx : QueryCtx) (h0 : 0 ≤ ctx.thr) (hne : ctx.searchSet.Nonempty) :
    ctx.wy ≤ ((ctx.stopYn - 1 - ctx.startYn : ℕ) : ℚ) := by
  calc ctx.wy
      ≤ ∑ p ∈ ctx.searchSet, ((ctx.stopYn - 1 - ctx.startYn : ℕ) : ℚ) *
          (ctx.weightRaw p.1 p.2 / ctx.totalWeight) := by
        apply Finset.sum_le_sum
        intro p hp
        have hb := (searchSet_bounds ctx hp).1.2
        exact mul_le_mul_of_nonneg_right (Nat.cast_le.mpr (by omega))
          (div_nonneg (weightRaw_pos ctx h0 p.1 p.2).le (totalWeight_pos ctx h0 hne).le)
    _ = ((ctx.stopYn - 1 - ctx.startYn : ℕ) : ℚ) *
          ∑ p ∈ ctx.searchSet, ctx.weightRaw p.1 p.2 / ctx.totalWeight := by
        rw [Finset.mul_sum]
    _ = ((ctx.stopYn - 1 - ctx.startYn : ℕ) : ℚ) := by
        rw [normWeights_sum ctx h0 hne, mul_one]

/-- C6: whenever at least one cell passes the threshold (taken
non-negative, with positive cell dimensions), the point returned by the
query lies within the screen-space bounding box of the radius-bounded,
grid-clipped sub-grid that was searched: the weighted centroid, converted
by `((col + 0.5) * cell_w, (row + 0.5) * cell_h)`, cannot fall outside the
searched area. -/
theorem c6_result_in_searched_bbox (ctx : QueryCtx) (h0 : 0 ≤ ctx.thr)
    (hw : 0 < ctx.g.cellW) (hh : 0 < ctx.g.cellH) (hap : ctx.anyPass = true) :
    (ctx.startXn : ℚ) * ctx.g.cellW ≤ (findCore ctx).1 ∧
    (findCore ctx).1 ≤ (ctx.stopXn : ℚ) * ctx.g.cellW ∧
    (ctx.startYn : ℚ) * ctx.g.cellH ≤ (findCore ctx).2 ∧
    (findCore ctx).2 ≤ (ctx.stopYn : ℚ) * ctx.g.cellH := by
  have hne : ctx.searchSet.Nonempty := by
    have hap2 := hap
    rw [QueryCtx.anyPass, decide_eq_true_eq] at hap2
    obtain ⟨p, hp, _⟩ := hap2
    exact ⟨p, hp⟩
  obtain ⟨p0, hp0⟩ := hne
  have hb0 := searchSet_bounds ctx hp0
  have hxlt : ctx.startXn < ctx.stopXn := lt_of_le_of_lt hb0.2.1 hb0.2.2
  have hylt : ctx.startYn < ctx.stopYn := lt_of_le_of_lt hb0.1.1 hb0.1.2
  have hne : ctx.searchSet.Nonempty := ⟨p0, hp0⟩
  have hwx0 := wx_nonneg ctx h0 hne
  have hwy0 := wy_nonneg ctx h0 hne
  have hwxB := wx_le ctx h0 hne
  have hwyB := wy_le ctx h0 hne
  have hcx : ((ctx.stopXn - 1 - ctx.startXn : ℕ) : ℚ) =
      (ctx.stopXn : ℚ) - 1 - (ctx.startXn : ℚ) := by
    rw [Nat.cast_sub (by omega), Nat.cast_sub (by omega)]
    norm_num
  have hcy : ((ctx.stopYn - 1 - ctx.startYn : ℕ) : ℚ) =
      (ctx.stopYn : ℚ) - 1 - (ctx.startYn : ℚ) := by
    rw [Nat.cast_sub (by omega), Nat.cast_sub (by omega)]
    norm_num
  rw [hcx] at hwxB
  rw [hcy] at hwyB
  rw [findCore, if_pos hne, if_pos hap]
  refine ⟨?_, ?_, ?_, ?_⟩
  · exact mul_le_mul_of_nonneg_right (by linarith) hw.le
  · exact mul_le_mul_of_nonneg_right (by linarith) hw.le
  · exact mul_le_mul_of_nonneg_right (by linarith) hh.le
  · exact mul_le_mul_of_nonneg_right (by linarith) hh.le

/-- Witness for C6: on the 1×1 grid with entry 3 the query at (30, 30)
returns a point (it is (50, 50)) inside the searched box [0,100]×[0,100]. -/
theorem c6_result_in_searched_bbox_w :
    ((ctx1 3 (7 / 10)).startXn : ℚ) * 100 ≤ (findCore (ctx1 3 (7 / 10))).1 ∧
    (findCore (ctx1 3 (7 / 10))).1 ≤ ((ctx1 3 (7 / 10)).stopXn : ℚ) * 100 ∧
    ((ctx1 3 (7 / 10)).startYn : ℚ) * 100 ≤ (findCore (ctx1 3 (7 / 10))).2 ∧
    (findCore (ctx1 3 (7 / 10))).2 ≤ ((ctx1 3 (7 / 10)).stopYn : ℚ) * 100 := by
  have hap : (ctx1 3 (7 / 10)).anyPass = true := by
    rw [ctx1_anyPass]
    exact ctx1_pass_3
  exact c6_result_in_searched_bbox (ctx1 3 (7 / 10)) (by norm_num [ctx1])
    (by norm_num [ctx1, g1]) (by norm_num [ctx1, g1]) hap

/-- The same query on the matrix with every entry multiplied by `c`. -/
def scaleCtx (c : ℚ) (ctx : QueryCtx) : QueryCtx :=
  ⟨⟨ctx.g.rows, ctx.g.cols, fun r col => c * ctx.g.entry r col, ctx.g.cellW, ctx.g.cellH⟩,
   ctx.x, ctx.y, ctx.radius, ctx.thr⟩

theorem scaleCtx_searchSet (c : ℚ) (ctx : QueryCtx) :
    (scaleCtx c ctx).searchSet = ctx.searchSet := rfl

theorem scaleCtx_subMax (c : ℚ) (ctx : QueryCtx) (hc : 0 ≤ c) :
    (scaleCtx c ctx).subMax = c * ctx.subMax := by
  simp only [QueryCtx.subMax, scaleCtx_searchSet]
  by_cases hne : ctx.searchSet.Nonempty
  · rw [dif_pos hne, dif_pos hne]
    apply le_antisymm
    · rw [Finset.sup'_le_iff]
      intro p hp
      have hle : ctx.g.entry p.1 p.2 ≤ ctx.searchSet.sup' hne fun q => ctx.g.entry q.1 q.2 := by
        rw [Finset.le_sup'_iff]
        exact ⟨p, hp, le_refl _⟩
      exact mul_le_mul_of_nonneg_left hle hc
    · obtain ⟨b, hb, hbe⟩ := Finset.exists_mem_eq_sup' hne fun q => ctx.g.entry q.1 q.2
      rw [hbe, Finset.le_sup'_iff]
      exact ⟨b, hb, le_refl _⟩
  · rw [dif_neg hne, dif_neg hne, mul_zero]

theorem scaleCtx_passesB (c : ℚ) (ctx : QueryCtx) (hc : 0 < c)
    (h1 : 1 < ctx.subMax) (h2 : 1 < (scaleCtx c ctx).subMax) (r col : ℕ) :
    (scaleCtx c ctx).passesB r col = ctx.passesB r col := by
  rw [QueryCtx.passesB, QueryCtx.passesB, if_pos h2, if_pos h1, decide_eq_decide]
  have he : (scaleCtx c ctx).g.entry r col = c * ctx.g.entry r col := rfl
  rw [he, scaleCtx_subMax c ctx hc.le, mul_div_mul_left _ _ (ne_of_gt hc)]
  exact Iff.rfl

theorem scaleCtx_anyPass (c : ℚ) (ctx : QueryCtx) (hc : 0 < c)
    (h1 : 1 < ctx.subMax) (h2 : 1 < (scaleCtx c ctx).subMax) :
    (scaleCtx c ctx).anyPass = ctx.anyPass := by
  rw [QueryCtx.anyPass, QueryCtx.anyPass, decide_eq_decide]
  simp only [scaleCtx_searchSet]
  exact exists_congr fun p => and_congr_right fun _ => by
    rw [scaleCtx_passesB c ctx hc h1 h2]

/-- C4 counterexample: on a 1×1 matrix with entry 0.3 and threshold 0.5,
the sub-grid max is ≤ 1.0 so raw values are compared and no cell passes
(the query returns (30, 30) unchanged); after multiplying all entries by
10 the max is 3 > 1.0, normalization kicks in, the cell passes and the
query returns (50, 50) — scaling changed both the pass set and the
returned point. -/
theorem c4_scale_changes_result_cex :
    (ctx1 (3 / 10) (1 / 2)).passesB 0 0 = false ∧
    (scaleCtx 10 (ctx1 (3 / 10) (1 / 2))).passesB 0 0 = true ∧
    findCore (ctx1 (3 / 10) (1 / 2)) = (30, 30) ∧
    findCore (scaleCtx 10 (ctx1 (3 / 10) (1 / 2))) = (50, 50) ∧
    ((30 : ℚ), (30 : ℚ)) ≠ ((50 : ℚ), (50 : ℚ)) := by
  have hfun : (fun r col : ℕ => (10 : ℚ) * (3 / 10)) = (fun r col : ℕ => (3 : ℚ)) := by
    funext r col
    norm_num
  have hsc : scaleCtx 10 (ctx1 (3 / 10) (1 / 2)) = ctx1 3 (1 / 2) := by
    show QueryCtx.mk (ImpGrid.mk 1 1 (fun r col : ℕ => (10 : ℚ) * (3 / 10)) 100 100)
      30 30 200 (1 / 2) =
      QueryCtx.mk (ImpGrid.mk 1 1 (fun r col : ℕ => (3 : ℚ)) 100 100) 30 30 200 (1 / 2)
    rw [hfun]
  have hp1 : (ctx1 (3 / 10) (1 / 2)).passesB 0 0 = false := by
    rw [QueryCtx.passesB, ctx1_subMax]
    norm_num [ctx1, g1]
  have hp2 : (ctx1 3 (1 / 2)).passesB 0 0 = true := by
    rw [QueryCtx.passesB, ctx1_subMax]
    norm_num [ctx1, g1]
  refine ⟨hp1, ?_, ctx1_findCore_nopass _ _ hp1, ?_, by norm_num⟩
  · rw [hsc]
    exact hp2
  · rw [hsc]
    exact ctx1_findCore_pass _ _ hp2

/-- C4 (amended): the threshold test divides by the sub-grid max only when
that max exceeds 1.0 (otherwise raw values are compared against the
threshold). When both the original and the scaled sub-grid maxima exceed
1.0, multiplying all entries by c > 0 preserves the set of passing cells
and whether any cell passes; the returned point, however, can still shift
on the order of the epsilon added to the centroid weights, and when a
sub-grid max is ≤ 1.0 even the pass set can change. -/
theorem c4_scale_invariance_when_normalized (ctx : QueryCtx) (c : ℚ) (hc : 0 < c)
    (h1 : 1 < ctx.subMax) (h2 : 1 < (scaleCtx c ctx).subMax) :
    (∀ r col : ℕ, (scaleCtx c ctx).passesB r col = ctx.passesB r col) ∧
    (scaleCtx c ctx).anyPass = ctx.anyPass :=
  ⟨fun r col => scaleCtx_passesB c ctx hc h1 h2 r col,
   scaleCtx_anyPass c ctx hc h1 h2⟩

/-- Witness for C4 (amended): entry 3 scaled by 2 — both maxima exceed
1.0 and the pass verdicts agree. -/
theorem c4_scale_invariance_when_normalized_w :
    (scaleCtx 2 (ctx1 3 (7 / 10))).passesB 0 0 = (ctx1 3 (7 / 10)).passesB 0 0 ∧
    (scaleCtx 2 (ctx1 3 (7 / 10))).anyPass = (ctx1 3 (7 / 10)).anyPass := by
  have h1 : 1 < (ctx1 3 (7 / 10)).subMax := by
    rw [ctx1_subMax]
    norm_num
  have h2 : 1 < (scaleCtx 2 (ctx1 3 (7 / 10))).subMax := by
    rw [scaleCtx_subMax 2 _ (by norm_num), ctx1_subMax]
    norm_num
  exact ⟨(c4_scale_invariance_when_normalized (ctx1 3 (7 / 10)) 2 (by norm_num) h1 h2).1 0 0,
    (c4_scale_invariance_when_normalized (ctx1 3 (7 / 10)) 2 (by norm_num) h1 h2).2⟩

theorem sampleDistSq_nonneg (useL useR : Bool) (curL curR : ℚ × ℚ) (d : CalSample) :
    0 ≤ sampleDistSq useL useR curL curR d := by
  rw [sampleDistSq]
  have hl : 0 ≤ (curL.1 - d.leftPupil.1) ^ 2 + (curL.2 - d.leftPupil.2) ^ 2 :=
    add_nonneg (sq_nonneg _) (sq_nonneg _)
  have hr : 0 ≤ (curR.1 - d.rightPupil.1) ^ 2 + (curR.2 - d.rightPupil.2) ^ 2 :=
    add_nonneg (sq_nonneg _) (sq_nonneg _)
  split_ifs
  · linarith
  · exact hl
  · exact hr

/-- C7: for every pupil reading with at least one pupil detected and every
non-empty calibration set, the inverse-distance weights
`1 / (distance² + 1e-10)` are normalized so that they sum to exactly 1
across all calibration samples. -/
theorem c7_weights_sum_to_one (s : EyeTrackerState)
    (eye : Option (ℚ × ℚ) × Option (ℚ × ℚ))
    (hpupil : eye.1.isSome = true ∨ eye.2.isSome = true)
    (hcal : s.calibratedPoints ≠ []) :
    ((gazeWeights s eye).map Prod.snd).sum = 1 := by
  have hpos : ∀ w ∈ (rawGazeWeights s eye).map Prod.snd, 0 < w := by
    intro w hw
    rw [List.mem_map] at hw
    obtain ⟨pw, hpw, rfl⟩ := hw
    rw [rawGazeWeights, List.mem_map] at hpw
    obtain ⟨pd, _, rfl⟩ := hpw
    have hd := sampleDistSq_nonneg eye.1.isSome eye.2.isSome
      (currentEyes eye).1 (currentEyes eye).2 pd.2
    have heps : (0 : ℚ) < epsTen := by norm_num [epsTen]
    exact one_div_pos.mpr (by linarith)
  have hraw_ne : (rawGazeWeights s eye).map Prod.snd ≠ [] := by
    simp [rawGazeWeights, hcal]
  have htot : 0 < ((rawGazeWeights s eye).map Prod.snd).sum :=
    listSum_pos _ hraw_ne hpos
  rw [gazeWeights, if_pos htot, List.map_map]
  have hcomp : (Prod.snd ∘ fun pw : String × ℚ =>
      (pw.1, pw.2 / ((rawGazeWeights s eye).map Prod.snd).sum)) =
      (fun q => q / ((rawGazeWeights s eye).map Prod.snd).sum) ∘ Prod.snd := rfl
  rw [hcomp, ← List.map_map, listSum_div]
  exact div_self (ne_of_gt htot)

/-- Witness for C7 at a concrete calibrated tracker and a left-pupil-only
reading. -/
theorem c7_weights_sum_to_one_w :
    ((gazeWeights trkW (some (105, 205), none)).map Prod.snd).sum = 1 :=
  c7_weights_sum_to_one trkW (some (105, 205), none) (Or.inl rfl) (by simp [trkW])

theorem tokenScore_nonneg (cfg : AnalyzerConfig) (hb : 0 ≤ cfg.baseSize)
    (hmax : 0 ≤ cfg.maxSizeFactor) (hmin : 0 ≤ cfg.minSizeFactor)
    (herr : 0 ≤ cfg.errorImportance) (hcf : 0 ≤ cfg.confirmationTextImportance)
    (hti : 0 ≤ cfg.titleImportance) (hlen : 0 ≤ cfg.lengthImportance)
    (t : OcrToken) : 0 ≤ tokenScore cfg t := by
  simp only [tokenScore]
  apply mul_nonneg (mul_nonneg ?_ ?_) ?_
  · split_ifs with h
    · refine le_min (div_nonneg hb ?_) hmax
      have : (5 : ℚ) ≤ max ((t.height : ℤ) : ℚ) 5 := le_max_right _ _
      linarith
    · exact le_trans hmin (le_max_right _ _)
  · split_ifs with h1 h2 h3
    · exact herr
    · exact hcf
    · exact hti
    · norm_num
  · split_ifs with h
    · exact hlen
    · norm_num

theorem analyzeTextImportance_nonneg (cfg : AnalyzerConfig) (hb : 0 ≤ cfg.baseSize)
    (hmax : 0 ≤ cfg.maxSizeFactor) (hmin : 0 ≤ cfg.minSizeFactor)
    (herr : 0 ≤ cfg.errorImportance) (hcf : 0 ≤ cfg.confirmationTextImportance)
    (hti : 0 ≤ cfg.titleImportance) (hlen : 0 ≤ cfg.lengthImportance)
    (hden : 0 ≤ cfg.densityImportance) (tokens : List OcrToken) :
    0 ≤ analyzeTextImportance cfg tokens := by
  apply listSum_nonneg
  intro x hx
  rw [List.mem_map] at hx
  obtain ⟨t, _, rfl⟩ := hx
  exact add_nonneg (tokenScore_nonneg cfg hb hmax hmin herr hcf hti hlen t) hden

theorem contourImportance_nonneg (cfg : AnalyzerConfig)
    (hbtn : 0 ≤ cfg.buttonImportance) (hinp : 0 ≤ cfg.inputFieldImportance)
    (hcb : 0 ≤ cfg.checkboxImportance) {c : Contour} {v : ℚ}
    (h : contourImportance cfg c = some v) : 0 ≤ v := by
  rw [contourImportance] at h
  split_ifs at h <;> simp_all

theorem detectUIElements_nonneg (cfg : AnalyzerConfig)
    (hbtn : 0 ≤ cfg.buttonImportance) (hinp : 0 ≤ cfg.inputFieldImportance)
    (hcb : 0 ≤ cfg.checkboxImportance) (cs : List Contour) :
    0 ≤ detectUIElements cfg cs := by
  apply listSum_nonneg
  intro x hx
  rw [List.mem_filterMap] at hx
  obtain ⟨c, _, hc⟩ := hx
  exact contourImportance_nonneg cfg hbtn hinp hcb hc

theorem cellScore_nonneg (cfg : AnalyzerConfig) (hb : 0 ≤ cfg.baseSize)
    (hmax : 0 ≤ cfg.maxSizeFactor) (hmin : 0 ≤ cfg.minSizeFactor)
    (hbtn : 0 ≤ cfg.buttonImportance) (hinp : 0 ≤ cfg.inputFieldImportance)
    (hcb : 0 ≤ cfg.checkboxImportance) (hcf : 0 ≤ cfg.confirmationTextImportance)
    (herr : 0 ≤ cfg.errorImportance) (hti : 0 ≤ cfg.titleImportance)
    (hlen : 0 ≤ cfg.lengthImportance) (hden : 0 ≤ cfg.densityImportance)
    (o : CellOutcome) : 0 ≤ cellScore cfg o := by
  cases o with
  | invalid => exact le_refl 0
  | failed => exact le_refl 0
  | ok tokens contours =>
      exact add_nonneg (detectUIElements_nonneg cfg hbtn hinp hcb contours)
        (analyzeTextImportance_nonneg cfg hb hmax hmin herr hcf hti hlen hden tokens)

/-- C5: for every grid configuration with at least one row and column and
non-negative size/importance parameters, and for every input (including
the whole-grid failure path), `generate_importance_grid` returns a matrix
of shape exactly `(grid_rows, grid_cols)` all of whose entries are ≥ 0. -/
theorem c5_grid_shape_and_nonneg (cfg : AnalyzerConfig)
    (input : Option (ℕ → ℕ → CellOutcome))
    (hgx : 1 ≤ cfg.gridX) (hgy : 1 ≤ cfg.gridY)
    (hb : 0 ≤ cfg.baseSize) (hmax : 0 ≤ cfg.maxSizeFactor)
    (hmin : 0 ≤ cfg.minSizeFactor) (hbtn : 0 ≤ cfg.buttonImportance)
    (hinp : 0 ≤ cfg.inputFieldImportance) (hcb : 0 ≤ cfg.checkboxImportance)
    (hcf : 0 ≤ cfg.confirmationTextImportance) (herr : 0 ≤ cfg.errorImportance)
    (hti : 0 ≤ cfg.titleImportance) (hlen : 0 ≤ cfg.lengthImportance)
    (hden : 0 ≤ cfg.densityImportance) :
    (generateImportanceGrid cfg input).length = cfg.gridY ∧
    (∀ row ∈ generateImportanceGrid cfg input, row.length = cfg.gridX) ∧
    (∀ row ∈ generateImportanceGrid cfg input, ∀ v ∈ row, 0 ≤ v) := by
  cases input with
  | none =>
      refine ⟨by simp [generateImportanceGrid], ?_, ?_⟩
      · intro row hrow
        rw [generateImportanceGrid, List.mem_replicate] at hrow
        rw [hrow.2]
        exact List.length_replicate _ _
      · intro row hrow v hv
        rw [generateImportanceGrid, List.mem_replicate] at hrow
        rw [hrow.2, List.mem_replicate] at hv
        rw [hv.2]
        norm_num
  | some cells =>
      refine ⟨by simp [generateImportanceGrid], ?_, ?_⟩
      · intro row hrow
        rw [generateImportanceGrid, List.mem_map] at hrow
        obtain ⟨y, _, rfl⟩ := hrow
        simp
      · intro row hrow v hv
        rw [generateImportanceGrid, List.mem_map] at hrow
        obtain ⟨y, _, rfl⟩ := hrow
        rw [List.mem_map] at hv
        obtain ⟨x, _, rfl⟩ := hv
        exact cellScore_nonneg cfg hb hmax hmin hbtn hinp hcb hcf herr hti hlen hden _

/-- Witness for C5: the default configuration on an input with one token
in cell (0, 0) and the whole-grid fallback input. -/
theorem c5_grid_shape_and_nonneg_w :
    (generateImportanceGrid defaultConfig
      (some fun x y => if x = 0 ∧ y = 0 then
        CellOutcome.ok [⟨"Save", 90, 10⟩] [] else CellOutcome.ok [] [])).length =
      defaultConfig.gridY ∧
    (∀ row ∈ generateImportanceGrid defaultConfig
      (some fun x y => if x = 0 ∧ y = 0 then
        CellOutcome.ok [⟨"Save", 90, 10⟩] [] else CellOutcome.ok [] []),
      row.length = defaultConfig.gridX) ∧
    (∀ row ∈ generateImportanceGrid defaultConfig
      (some fun x y => if x = 0 ∧ y = 0 then
        CellOutcome.ok [⟨"Save", 90, 10⟩] [] else CellOutcome.ok [] []),
      ∀ v ∈ row, 0 ≤ v) :=
  c5_grid_shape_and_nonneg defaultConfig _
    (by norm_num [defaultConfig]) (by norm_num [defaultConfig])
    (by norm_num [defaultConfig]) (by norm_num [defaultConfig])
    (by norm_num [defaultConfig]) (by norm_num [defaultConfig])
    (by norm_num [defaultConfig]) (by norm_num [defaultConfig])
    (by norm_num [defaultConfig]) (by norm_num [defaultConfig])
    (by norm_num [defaultConfig]) (by norm_num [defaultConfig])
    (by norm_num [defaultConfig])

theorem entryAt_generate (cfg : AnalyzerConfig) (f : ℕ → ℕ → CellOutcome)
    {r c : ℕ} (hr : r < cfg.gridY) (hc : c < cfg.gridX) :
    entryAt (generateImportanceGrid cfg (some f)) r c = cellScore cfg (f c r) := by
  simp [entryAt, generateImportanceGrid, List.getD, hr, hc]

/-- C9: a per-cell analysis exception is caught per-cell: the failing cell
scores 0 in the matrix, and every other cell's entry is exactly what it
would have been had that cell not failed — a single-cell failure never
aborts the whole grid computation. -/
theorem c9_cell_failure_isolated (cfg : AnalyzerConfig)
    (cells cellsF : ℕ → ℕ → CellOutcome) (x0 y0 : ℕ)
    (hx : x0 < cfg.gridX) (hy : y0 < cfg.gridY)
    (hfail : cellsF x0 y0 = CellOutcome.failed)
    (hagree : ∀ a b : ℕ, ¬(a = x0 ∧ b = y0) → cellsF a b = cells a b) :
    entryAt (generateImportanceGrid cfg (some cellsF)) y0 x0 = 0 ∧
    ∀ a b : ℕ, a < cfg.gridX → b < cfg.gridY → ¬(a = x0 ∧ b = y0) →
      entryAt (generateImportanceGrid cfg (some cellsF)) b a =
      entryAt (generateImportanceGrid cfg (some cells)) b a := by
  constructor
  · rw [entryAt_generate cfg cellsF hy hx, hfail]
    rfl
  · intro a b ha hb hne
    rw [entryAt_generate cfg cellsF hb ha, entryAt_generate cfg cells hb ha,
      hagree a b hne]

/-- Witness for C9: the default configuration with cell (0, 0) failing. -/
theorem c9_cell_failure_isolated_w :
    entryAt (generateImportanceGrid defaultConfig
      (some fun a b => if a = 0 ∧ b = 0 then CellOutcome.failed
        else CellOutcome.ok [] [])) 0 0 = 0 ∧
    ∀ a b : ℕ, a < defaultConfig.gridX → b < defaultConfig.gridY →
      ¬(a = 0 ∧ b = 0) →
      entryAt (generateImportanceGrid defaultConfig
        (some fun a b => if a = 0 ∧ b = 0 then CellOutcome.failed
          else CellOutcome.ok [] [])) b a =
      entryAt (generateImportanceGrid defaultConfig
        (some fun a b => CellOutcome.ok [] [])) b a :=
  c9_cell_failure_isolated defaultConfig (fun a b => CellOutcome.ok [] [])
    (fun a b => if a = 0 ∧ b = 0 then CellOutcome.failed else CellOutcome.ok [] [])
    0 0 (by norm_num [defaultConfig]) (by norm_num [defaultConfig])
    (by simp) (fun a b hne => by simp [hne])
